import Mathlib

/-!
Shallow embedding of the notification event router of `src/App.tsx`
(steam-castle repository).

The router consumes events from two sources — the Firebase messaging
listeners (`onMessage`, `onNotificationOpenedApp`, `getInitialNotification`)
and the Notifee foreground-event listener (`onForegroundEvent`) — and folds
each into a single status string (`notificationMessage`), optionally showing
a one-shot `Alert.alert` acknowledgment.

JavaScript semantics modelled explicitly:
  - optional chaining `x?.f` becomes `Option` composition;
  - `v || d` on strings treats both `undefined` and `""` as falsy (`jsOr`);
  - interpolating an `undefined` value into a template literal renders the
    literal text `undefined` (`jsInterp`).
-/

/-- The optional `notification` object of a remote message or a Notifee
notification: optional `title` and `body` strings. -/
structure NotificationContent where
  title : Option String
  body : Option String
deriving Repr, DecidableEq

/-- An inbound FCM remote message as consumed by the router: only the
optional `notification` field is read by the handlers. -/
structure RemoteMessage where
  notificationContent : Option NotificationContent
deriving Repr, DecidableEq

/-- `detail.pressAction` of a Notifee event: the action identifier. -/
structure PressAction where
  id : String
deriving Repr, DecidableEq

/-- `detail` of a Notifee foreground event: the displayed notification,
the optional press action, the optional typed input, and the optional
`blocked` flag of APP_BLOCKED events. -/
structure EventDetail where
  notificationContent : Option NotificationContent
  pressAction : Option PressAction
  input : Option String
  blocked : Option Bool
deriving Repr, DecidableEq

/-- Notifee `EventType` discriminator as matched by the `switch` in
`onForegroundEvent`. Event types the switch does not mention are the
`other` constructor, carrying the raw numeric code. -/
inductive NotifeeEventType where
  | press
  | dismissed
  | delivered
  | actionPress
  | appBlocked
  | other (code : Int)
deriving Repr, DecidableEq

/-- The single piece of process state the router writes: the
`notificationMessage` React state slot. -/
structure AppState where
  notificationMessage : String
deriving Repr, DecidableEq

/-- Result of feeding one raw event to a handler: the updated state and
the list of `Alert.alert (title, body)` acknowledgments shown. -/
structure StepResult where
  state : AppState
  alerts : List (String × String)
deriving Repr, DecidableEq

/-- JavaScript `v || d` on an optional string: `undefined` and the empty
string are falsy, any other string is returned as-is. -/
def jsOr (v : Option String) (d : String) : String :=
  match v with
  | none => d
  | some s => if s = "" then d else s

/-- JavaScript template-literal interpolation of a possibly-`undefined`
string: `undefined` renders as the literal text `undefined`. -/
def jsInterp (v : Option String) : String :=
  match v with
  | none => "undefined"
  | some s => s

/-- `m.notification?.title` -/
def RemoteMessage.title (m : RemoteMessage) : Option String :=
  m.notificationContent.bind NotificationContent.title

/-- `m.notification?.body` -/
def RemoteMessage.body (m : RemoteMessage) : Option String :=
  m.notificationContent.bind NotificationContent.body

/-- `detail.notification?.title` -/
def EventDetail.notifTitle (d : EventDetail) : Option String :=
  d.notificationContent.bind NotificationContent.title

/-- `detail.notification?.body` -/
def EventDetail.notifBody (d : EventDetail) : Option String :=
  d.notificationContent.bind NotificationContent.body

/-- `detail.pressAction?.id` -/
def EventDetail.pressActionId (d : EventDetail) : Option String :=
  d.pressAction.map PressAction.id

/-- The `onMessage` foreground FCM listener (src/App.tsx lines 180-197):
sets the projection to the `FCM Foreground:` template and shows an alert
with the message title/body, each defaulted when absent. -/
def onMessage (s : AppState) (m : RemoteMessage) : StepResult :=
  { state := { s with notificationMessage :=
      "FCM Foreground: " ++ jsOr m.title "" ++ " - " ++ jsOr m.body "" },
    alerts := [(jsOr m.title "New FCM Notification",
                jsOr m.body "You have a new message!")] }

/-- The `onNotificationOpenedApp` listener (src/App.tsx lines 200-213):
sets the projection to the opened-from-background template; no alert. -/
def onNotificationOpenedApp (s : AppState) (m : RemoteMessage) : StepResult :=
  let msg := "Opened from Background/Quit (FCM): " ++ jsOr m.title "" ++
    " - " ++ jsOr m.body ""
  { state := { s with notificationMessage := msg },
    alerts := [] }

/-- The `getInitialNotification` continuation (src/App.tsx lines 216-232):
when a cold-start message is present, sets the projection to the
opened-from-quit template; otherwise does nothing. No alert either way. -/
def getInitialNotificationHandler (s : AppState) (m : Option RemoteMessage) :
    StepResult :=
  match m with
  | none => { state := s, alerts := [] }
  | some msg =>
      let text := "Opened from Quit (FCM): " ++ jsOr msg.title "" ++
        " - " ++ jsOr msg.body ""
      { state := { s with notificationMessage := text },
        alerts := [] }

/-- The Notifee `onForegroundEvent` switch (src/App.tsx lines 236-311). -/
def onForegroundEvent (s : AppState) (t : NotifeeEventType)
    (d : EventDetail) : StepResult :=
  match t with
  | .press =>
      let text := "Notifee Pressed: " ++ jsOr d.notifTitle "" ++ " - " ++
        jsOr d.notifBody ""
      { state := { s with notificationMessage := text },
        alerts := [] }
  | .dismissed =>
      { state := { s with notificationMessage :=
          "Notifee Dismissed: " ++ jsOr d.notifTitle "" },
        alerts := [] }
  | .delivered => { state := s, alerts := [] }
  | .actionPress =>
      if d.pressActionId = some "reply" then
        let text := "Action: Reply -> \"" ++ jsOr d.input "No reply" ++
          "\" from Notifee: " ++ jsInterp d.notifTitle
        let ackBody := "You replied: \"" ++ jsOr d.input "No reply" ++ "\""
        { state := { s with notificationMessage := text },
          alerts := [("Reply Action", ackBody)] }
      else if d.pressActionId = some "mark-as-read" then
        { state := { s with notificationMessage :=
            "Action: Marked as Read from Notifee: " ++ jsInterp d.notifTitle },
          alerts := [("Mark as Read Action", "Notification marked as read.")] }
      else if d.pressActionId = some "default" then
        { state := s,
          alerts := [("Default Action", "Notification marked as read.")] }
      else
        { state := s, alerts := [] }
  | .appBlocked =>
      let text := "App Notifications Blocked: " ++
        (if d.blocked = some true then "Yes" else "No")
      { state := { s with notificationMessage := text },
        alerts := [] }
  | .other _ => { state := s, alerts := [] }

/-- The union of raw events the router consumes, tagged by source. -/
inductive RawEvent where
  | remoteForeground (m : RemoteMessage)
  | remoteOpenedBackground (m : RemoteMessage)
  | remoteInitial (m : Option RemoteMessage)
  | notifee (t : NotifeeEventType) (d : EventDetail)
deriving Repr, DecidableEq

/-- Dispatch of a raw event to the matching handler. -/
def routeEvent (s : AppState) : RawEvent → StepResult
  | .remoteForeground m => onMessage s m
  | .remoteOpenedBackground m => onNotificationOpenedApp s m
  | .remoteInitial m => getInitialNotificationHandler s m
  | .notifee t d => onForegroundEvent s t d

/-- Whether a Notifee foreground event matches a row of the classification
table: ACTION_PRESS requires one of the three known action identifiers,
and unmentioned event types match nothing. -/
def isClassified (t : NotifeeEventType) (d : EventDetail) : Bool :=
  match t with
  | .press => true
  | .dismissed => true
  | .delivered => true
  | .appBlocked => true
  | .actionPress =>
      d.pressActionId = some "reply" ∨ d.pressActionId = some "mark-as-read" ∨
        d.pressActionId = some "default"
  | .other _ => false

/-- Effects performed by `requestUserPermission` (src/App.tsx lines 31-77),
in order: the single permission request, alerts, and the token fetch. -/
inductive PermEffect where
  | requestPermission
  | alert (title body : String)
  | getToken
deriving Repr, DecidableEq

/-- The Android branch of `requestUserPermission` (src/App.tsx lines
32-57): one `PermissionsAndroid.request`, then either the token fetch when
the result is the granted constant, or the one-shot denial alert. -/
def requestUserPermissionAndroid (result : String) : List PermEffect :=
  .requestPermission ::
    (if result = "granted" then [.getToken]
     else [.alert "Permission Denied"
        "Notification permission was denied. You may not receive notifications."])

/-- The non-Android branch of `requestUserPermission` (src/App.tsx lines
58-76): one `requestPermission` call, then either the token fetch when the
authorization status is AUTHORIZED (1) or PROVISIONAL (2), or the one-shot
denial alert. -/
def requestUserPermissionOther (authStatus : Int) : List PermEffect :=
  .requestPermission ::
    (if authStatus = 1 ∨ authStatus = 2 then [.getToken]
     else [.alert "Permission Denied"
        "Notification permission was denied. You may not receive notifications."])

/-- Number of alerts in an effect list. -/
def countAlerts (l : List PermEffect) : Nat :=
  (l.filter fun e => match e with | .alert _ _ => true | _ => false).length

/-- Number of permission requests in an effect list. -/
def countRequests (l : List PermEffect) : Nat :=
  (l.filter fun e => match e with | .requestPermission => true | _ => false).length

/-- C6: a foreground remote message with title "Hi" and body "there" sets
the projection to "FCM Foreground: Hi - there" and shows an acknowledgment
titled "Hi" with body "there". -/
theorem C6_foreground_hi_there (s : AppState) :
    onMessage s { notificationContent := some { title := some "Hi", body := some "there" } } =
      { state := { notificationMessage := "FCM Foreground: Hi - there" },
        alerts := [("Hi", "there")] } := rfl

/-- C7: a local-notification DELIVERED event leaves the projection
unchanged and triggers no acknowledgment. -/
theorem C7_delivered_no_change (s : AppState) (d : EventDetail) :
    onForegroundEvent s .delivered d = { state := s, alerts := [] } := rfl

/-- C10: a foreground remote message with absent title and body shows the
acknowledgment with the fixed defaults "New FCM Notification" and
"You have a new message!", while the projection renders both fields as
empty strings; this holds both when the whole notification object is
absent and when it is present with absent fields. -/
theorem C10_foreground_absent_fields (s : AppState) :
    onMessage s { notificationContent := none } =
      { state := { notificationMessage := "FCM Foreground:  - " },
        alerts := [("New FCM Notification", "You have a new message!")] } ∧
    onMessage s { notificationContent := some { title := none, body := none } } =
      { state := { notificationMessage := "FCM Foreground:  - " },
        alerts := [("New FCM Notification", "You have a new message!")] } :=
  ⟨rfl, rfl⟩

/-- C1 (failing input): the code violates the claim — an ACTION_PRESS with
actionId "reply" or "mark-as-read" whose notification title is absent
interpolates the title without a fallback, so the projection ends in the
literal substring "undefined". -/
theorem C1_reply_missing_title_undefined :
    (routeEvent { notificationMessage := "" }
        (.notifee .actionPress { notificationContent := none, pressAction := some { id := "reply" }, input := some "hi", blocked := none })).state.notificationMessage =
      "Action: Reply -> \"hi\" from Notifee: undefined" ∧
    (routeEvent { notificationMessage := "" }
        (.notifee .actionPress { notificationContent := some { title := none, body := none }, pressAction := some { id := "mark-as-read" }, input := none, blocked := none })).state.notificationMessage =
      "Action: Marked as Read from Notifee: undefined" := ⟨rfl, rfl⟩

/-- C2 (counterexample): a local-notification ACTION_PRESS with
pressAction.id "default" produces no StatusProjection at all — the prior
projection "prev" survives unchanged — so the claim that it produces a
local-action-default projection string is false; only the acknowledgment
is shown. -/
theorem C2_default_action_no_projection :
    onForegroundEvent { notificationMessage := "prev" } .actionPress
        { notificationContent := none, pressAction := some { id := "default" }, input := none, blocked := none } =
      { state := { notificationMessage := "prev" },
        alerts := [("Default Action", "Notification marked as read.")] } := rfl

/-- C2 (amended): for every ACTION_PRESS whose pressAction.id is "default",
the router leaves the StatusProjection unchanged and shows exactly the
one-shot acknowledgment titled "Default Action". -/
theorem C2_default_action_ack_only (s : AppState) (d : EventDetail)
    (h : d.pressActionId = some "default") :
    onForegroundEvent s .actionPress d =
      { state := s,
        alerts := [("Default Action", "Notification marked as read.")] } := by
  simp only [onForegroundEvent, h]
  rw [if_neg (by decide), if_neg (by decide), if_pos trivial]

/-- C2 witness: the amended theorem at a concrete default-action event. -/
theorem C2_default_action_ack_only_witness :
    onForegroundEvent { notificationMessage := "x" } .actionPress
        { notificationContent := none, pressAction := some { id := "default" }, input := none, blocked := none } =
      { state := { notificationMessage := "x" },
        alerts := [("Default Action", "Notification marked as read.")] } :=
  C2_default_action_ack_only { notificationMessage := "x" }
    { notificationContent := none, pressAction := some { id := "default" }, input := none, blocked := none } rfl

/-- C3: an event matching no row of the classification table — an
unmentioned Notifee event type, or an ACTION_PRESS whose actionId is none
of "reply", "mark-as-read", "default" — leaves the projection unchanged
and shows no acknowledgment. -/
theorem C3_unrecognized_event_dropped (s : AppState) (t : NotifeeEventType)
    (d : EventDetail) (h : isClassified t d = false) :
    onForegroundEvent s t d = { state := s, alerts := [] } := by
  cases t with
  | press => simp [isClassified] at h
  | dismissed => simp [isClassified] at h
  | delivered => rfl
  | appBlocked => simp [isClassified] at h
  | actionPress =>
      simp only [isClassified, decide_eq_false_iff_not, not_or] at h
      obtain ⟨h1, h2, h3⟩ := h
      simp [onForegroundEvent, h1, h2, h3]
  | other c => rfl

/-- C3 witness: the drop theorem at a concrete unmentioned event type and
at a concrete ACTION_PRESS with an unknown actionId. -/
theorem C3_unrecognized_event_dropped_witness :
    onForegroundEvent { notificationMessage := "x" } (.other 7)
        { notificationContent := none, pressAction := none, input := none, blocked := none } =
      { state := { notificationMessage := "x" }, alerts := [] } ∧
    onForegroundEvent { notificationMessage := "x" } .actionPress
        { notificationContent := none, pressAction := some { id := "snooze" }, input := none, blocked := none } =
      { state := { notificationMessage := "x" }, alerts := [] } :=
  ⟨C3_unrecognized_event_dropped { notificationMessage := "x" } (.other 7)
      { notificationContent := none, pressAction := none, input := none, blocked := none } (by decide),
   C3_unrecognized_event_dropped { notificationMessage := "x" } .actionPress
      { notificationContent := none, pressAction := some { id := "snooze" }, input := none, blocked := none } (by decide)⟩

/-- C4: a reply ACTION_PRESS with empty or absent input renders the
placeholder "No reply" in both the projection and the acknowledgment body;
with non-empty input both render the typed text. -/
theorem C4_reply_rendering (s : AppState) (d : EventDetail)
    (h : d.pressActionId = some "reply") :
    ((d.input = none ∨ d.input = some "") →
      onForegroundEvent s .actionPress d =
        { state := { notificationMessage := "Action: Reply -> \"No reply\" from Notifee: " ++ jsInterp d.notifTitle },
          alerts := [("Reply Action", "You replied: \"No reply\"")] }) ∧
    (∀ txt : String, d.input = some txt → txt ≠ "" →
      onForegroundEvent s .actionPress d =
        { state := { notificationMessage := "Action: Reply -> \"" ++ txt ++ "\" from Notifee: " ++ jsInterp d.notifTitle },
          alerts := [("Reply Action", "You replied: \"" ++ txt ++ "\"")] }) := by
  constructor
  · intro hin
    simp only [onForegroundEvent, h, if_pos trivial]
    rcases hin with hn | he
    · simp [jsOr, hn]
    · simp [jsOr, he]
  · intro txt ht hne
    simp only [onForegroundEvent, h, if_pos trivial]
    simp [jsOr, ht, hne]

/-- C4 witness: the reply theorem at concrete events, once with input "ok"
and once with absent input. -/
theorem C4_reply_rendering_witness :
    onForegroundEvent { notificationMessage := "" } .actionPress
        { notificationContent := some { title := some "T", body := none }, pressAction := some { id := "reply" }, input := some "ok", blocked := none } =
      { state := { notificationMessage := "Action: Reply -> \"ok\" from Notifee: T" },
        alerts := [("Reply Action", "You replied: \"ok\"")] } ∧
    onForegroundEvent { notificationMessage := "" } .actionPress
        { notificationContent := some { title := some "T", body := none }, pressAction := some { id := "reply" }, input := none, blocked := none } =
      { state := { notificationMessage := "Action: Reply -> \"No reply\" from Notifee: T" },
        alerts := [("Reply Action", "You replied: \"No reply\"")] } :=
  ⟨(C4_reply_rendering { notificationMessage := "" }
      { notificationContent := some { title := some "T", body := none }, pressAction := some { id := "reply" }, input := some "ok", blocked := none }
      rfl).2 "ok" rfl (by decide),
   (C4_reply_rendering { notificationMessage := "" }
      { notificationContent := some { title := some "T", body := none }, pressAction := some { id := "reply" }, input := none, blocked := none }
      rfl).1 (Or.inl rfl)⟩

/-- C5: the router is pure and idempotent per event — feeding the same raw
event twice yields the same StatusProjection as feeding it once, for every
event shape and every starting state. -/
theorem C5_router_idempotent (s : AppState) (e : RawEvent) :
    (routeEvent (routeEvent s e).state e).state = (routeEvent s e).state := by
  cases e with
  | remoteForeground m => rfl
  | remoteOpenedBackground m => rfl
  | remoteInitial m => cases m <;> rfl
  | notifee t d =>
      cases t with
      | actionPress =>
          simp only [routeEvent, onForegroundEvent]
          split_ifs <;> rfl
      | press => rfl
      | dismissed => rfl
      | delivered => rfl
      | appBlocked => rfl
      | other c => rfl

/-- C8: at launch, a present cold-start message sets the projection to the
opened-from-quit template with that message's title and body and shows no
acknowledgment; an absent one leaves the state unchanged. -/
theorem C8_initial_message (s : AppState) (m : Option RemoteMessage) :
    (m = none → getInitialNotificationHandler s m = { state := s, alerts := [] }) ∧
    (∀ msg : RemoteMessage, m = some msg →
      getInitialNotificationHandler s m =
        { state := { notificationMessage := "Opened from Quit (FCM): " ++ jsOr msg.title "" ++ " - " ++ jsOr msg.body "" },
          alerts := [] }) := by
  constructor
  · intro hn
    subst hn
    rfl
  · intro msg hm
    subst hm
    rfl

/-- C8 witness: the cold-start theorem at a concrete present message and at
the absent message. -/
theorem C8_initial_message_witness :
    getInitialNotificationHandler { notificationMessage := "x" } (some { notificationContent := some { title := some "A", body := some "B" } }) =
      { state := { notificationMessage := "Opened from Quit (FCM): A - B" },
        alerts := [] } ∧
    getInitialNotificationHandler { notificationMessage := "x" } none =
      { state := { notificationMessage := "x" }, alerts := [] } :=
  ⟨(C8_initial_message { notificationMessage := "x" }
      (some { notificationContent := some { title := some "A", body := some "B" } })).2
      { notificationContent := some { title := some "A", body := some "B" } } rfl,
   (C8_initial_message { notificationMessage := "x" } none).1 rfl⟩

/-- C9: when the permission request is denied — on the Android branch the
result differs from the granted constant, on the other branch the
authorization status is neither AUTHORIZED nor PROVISIONAL — the effect
trace holds exactly one permission request and exactly one acknowledgment,
the alert titled "Permission Denied"; the token fetch does not run. -/
theorem C9_permission_denied_once (res : String) (authStatus : Int)
    (hres : res ≠ "granted") (hst : ¬(authStatus = 1 ∨ authStatus = 2)) :
    requestUserPermissionAndroid res =
      [.requestPermission, .alert "Permission Denied" "Notification permission was denied. You may not receive notifications."] ∧
    countRequests (requestUserPermissionAndroid res) = 1 ∧
    countAlerts (requestUserPermissionAndroid res) = 1 ∧
    requestUserPermissionOther authStatus =
      [.requestPermission, .alert "Permission Denied" "Notification permission was denied. You may not receive notifications."] ∧
    countRequests (requestUserPermissionOther authStatus) = 1 ∧
    countAlerts (requestUserPermissionOther authStatus) = 1 := by
  have ha : requestUserPermissionAndroid res =
      [.requestPermission, .alert "Permission Denied" "Notification permission was denied. You may not receive notifications."] := by
    simp [requestUserPermissionAndroid, hres]
  have ho : requestUserPermissionOther authStatus =
      [.requestPermission, .alert "Permission Denied" "Notification permission was denied. You may not receive notifications."] := by
    simp [requestUserPermissionOther, hst]
  refine ⟨ha, ?_, ?_, ho, ?_, ?_⟩
  all_goals simp [ha, ho, countRequests, countAlerts]

/-- C9 witness: the denial theorem at the concrete results "denied" and
authorization status 0 (DENIED). -/
theorem C9_permission_denied_once_witness :
    requestUserPermissionAndroid "denied" =
      [.requestPermission, .alert "Permission Denied" "Notification permission was denied. You may not receive notifications."] ∧
    countAlerts (requestUserPermissionAndroid "denied") = 1 ∧
    countAlerts (requestUserPermissionOther 0) = 1 :=
  ⟨(C9_permission_denied_once "denied" 0 (by decide) (by decide)).1,
   (C9_permission_denied_once "denied" 0 (by decide) (by decide)).2.2.1,
   (C9_permission_denied_once "denied" 0 (by decide) (by decide)).2.2.2.2.2⟩
